import Mathlib

/-!
Shallow embedding of the Click-V guest demo (`rs-demo`) in Lean 4.

The embedded modules and their sources:

* `Syscall` and the gateway functions `syscall0` .. `syscall5` — `src/rs-demo/src/syscall.rs`.
  The `ecall` trap is modelled by a kernel oracle `Kernel` giving the value the
  trap handler leaves in register `a0`, as a function of how many traps have
  already been issued (the position in the run), the opcode register `a7`, and
  the argument registers `a0..a4`.  The machine-visible effect of a trap is
  recorded in a trace of `(a7, args)` events.
* System operation wrappers `print`, `open`, `socket`, `close`, `seek`, `read`,
  `write_u8_slice`, `write_ptr` — `src/rs-demo/src/system.rs`.
* The display device `WIDTH`, `HEIGHT`, `SIZE`, `START_ADDR`, `NUM_COLORS`,
  `Color`, `set_cell_by_index`, `set_cell`, `draw_screen` — `src/rs-demo/src/screen.rs`.
  Memory is a total map from byte addresses to byte values; the target is rv32,
  so pointer and index arithmetic is carried out modulo `2 ^ 32`.
* The demo entry point `mainRun` and its fill loop `fill_loop` —
  `src/rs-demo/src/main.rs`.  String literals live at link-time addresses we do
  not know, so their addresses come from a parameter `lit : String → Int`; the
  32-byte stack buffer `buf` likewise has a parameter address.  A run ends
  either in the terminal `loop {}` (`Outcome.halt`) or in the panic handler of
  `system.rs`, which also loops forever (`Outcome.panicked`); a slice
  expression `&buf[..e]` with `e > 32` panics.

Machine integers: `isize`/`usize` on rv32 are 32-bit; the casts `usize as isize`
and `isize as usize` reinterpret the 32-bit pattern and are modelled by
`usize_as_isize` and `isize_as_usize`.
-/

namespace ClickV

/-- Reinterpretation of a 32-bit `usize` value as `isize` (rv32). -/
def usize_as_isize (n : Nat) : Int :=
  if n < 2 ^ 31 then (n : Int) else (n : Int) - 2 ^ 32

/-- Reinterpretation of a 32-bit `isize` value as `usize` (rv32): the cast
`n as usize` in `main.rs`. -/
def isize_as_usize (n : Int) : Nat := (n % (2 ^ 32 : Int)).toNat

/-- Byte contents of a Rust byte-string literal (all literals in this program
are ASCII, where UTF-8 bytes and code points coincide). -/
def bytes (s : String) : List Nat := s.toList.map Char.toNat

/-- Syscall opcodes, from `syscall.rs`. -/
inductive Syscall
  | Print
  | Draw
  | Reset
  | Open
  | Close
  | Seek
  | Read
  | Write
  | Socket
deriving DecidableEq

/-- Opcode numbering, from `Syscall::to_isize` in `syscall.rs`. -/
def Syscall.to_isize : Syscall → Int
  | .Print => 1
  | .Draw => 2
  | .Reset => 0
  | .Open => 10
  | .Close => 11
  | .Seek => 12
  | .Read => 13
  | .Write => 14
  | .Socket => 15

/-- Kernel oracle: the signed word the `ecall` handler leaves in `a0`, as a
function of the number of traps issued so far, the opcode register `a7`, and
the argument registers. -/
def Kernel : Type := Nat → Int → List Int → Int

/-- Machine state visible to the embedded program: the byte memory (the display
buffer lives at `START_ADDR`) and the trace of issued traps, each recorded as
its `(a7, argument registers)` pair. -/
structure Machine where
  mem : Nat → Nat
  trace : List (Int × List Int)

/-- One `ecall` trap: `a7` holds `n.to_isize`, the argument registers hold
`args`; the result is whatever the kernel oracle answers and the event is
appended to the trace. -/
def ecall (k : Kernel) (n : Syscall) (args : List Int) (m : Machine) : Int × Machine :=
  (k m.trace.length n.to_isize args, { m with trace := m.trace ++ [(n.to_isize, args)] })

/-- Gateway arity 0, from `syscall0` in `syscall.rs`. -/
def syscall0 (k : Kernel) (n : Syscall) (m : Machine) : Int × Machine :=
  ecall k n [] m

/-- Gateway arity 1, from `syscall1` in `syscall.rs`. -/
def syscall1 (k : Kernel) (n : Syscall) (a1 : Int) (m : Machine) : Int × Machine :=
  ecall k n [a1] m

/-- Gateway arity 2, from `syscall2` in `syscall.rs`. -/
def syscall2 (k : Kernel) (n : Syscall) (a1 a2 : Int) (m : Machine) : Int × Machine :=
  ecall k n [a1, a2] m

/-- Gateway arity 3, from `syscall3` in `syscall.rs`. -/
def syscall3 (k : Kernel) (n : Syscall) (a1 a2 a3 : Int) (m : Machine) : Int × Machine :=
  ecall k n [a1, a2, a3] m

/-- Gateway arity 4, from `syscall4` in `syscall.rs`. -/
def syscall4 (k : Kernel) (n : Syscall) (a1 a2 a3 a4 : Int) (m : Machine) : Int × Machine :=
  ecall k n [a1, a2, a3, a4] m

/-- Gateway arity 5, from `syscall5` in `syscall.rs`. -/
def syscall5 (k : Kernel) (n : Syscall) (a1 a2 a3 a4 a5 : Int) (m : Machine) : Int × Machine :=
  ecall k n [a1, a2, a3, a4, a5] m

/-- A Rust `&[u8]` value: the numeric value of its start pointer and its byte
contents (so its length is `data.length`). -/
structure Slice where
  addr : Int
  data : List Nat

/-- Length of a slice, `<[u8]>::len`. -/
def Slice.len (s : Slice) : Nat := s.data.length

/-- Wrapper `print` from `system.rs`: issues `syscall2(Print, ptr, len)` and
discards the result (the Rust function returns `()`). -/
def print (k : Kernel) (msg : Slice) (m : Machine) : Machine :=
  (syscall2 k Syscall.Print msg.addr (usize_as_isize msg.len) m).2

/-- Wrapper `open` from `system.rs`. -/
def «open» (k : Kernel) (path_name : Slice) (flags : Int) (m : Machine) : Int × Machine :=
  syscall3 k Syscall.Open path_name.addr (usize_as_isize path_name.len) flags m

/-- Wrapper `socket` from `system.rs`. -/
def socket (k : Kernel) (address : Slice) (m : Machine) : Int × Machine :=
  syscall2 k Syscall.Socket address.addr (usize_as_isize address.len) m

/-- Wrapper `close` from `system.rs`. -/
def close (k : Kernel) (fd : Int) (m : Machine) : Int × Machine :=
  syscall1 k Syscall.Close fd m

/-- Wrapper `seek` from `system.rs`. -/
def seek (k : Kernel) (fd offset whence : Int) (m : Machine) : Int × Machine :=
  syscall3 k Syscall.Seek fd offset whence m

/-- Wrapper `read` from `system.rs`: passes the pointer and length of the
destination buffer. -/
def read (k : Kernel) (fd : Int) (buf : Slice) (m : Machine) : Int × Machine :=
  syscall3 k Syscall.Read fd buf.addr (usize_as_isize buf.len) m

/-- Wrapper `write_u8_slice` from `system.rs`. -/
def write_u8_slice (k : Kernel) (fd : Int) (buf : Slice) (m : Machine) : Int × Machine :=
  syscall3 k Syscall.Write fd buf.addr (usize_as_isize buf.len) m

/-- Wrapper `write_ptr` from `system.rs`. -/
def write_ptr (k : Kernel) (fd : Int) (ptr : Int) (count : Nat) (m : Machine) : Int × Machine :=
  syscall3 k Syscall.Write fd ptr (usize_as_isize count) m

/-- Display width in cells, from `screen.rs`. -/
def WIDTH : Nat := 40

/-- Display height in cells, from `screen.rs`. -/
def HEIGHT : Nat := 20

/-- Total cell count, from `screen.rs`. -/
def SIZE : Nat := WIDTH * HEIGHT

/-- Base address of the display buffer, from `screen.rs` (`0x00000C00`). -/
def START_ADDR : Nat := 0xC00

/-- Number of defined colors, from `screen.rs`. -/
def NUM_COLORS : Nat := 9

/-- Colors, from `screen.rs`. -/
inductive Color
  | Reset
  | Black
  | Red
  | Green
  | Yellow
  | Blue
  | Magenta
  | Cyan
  | White
deriving DecidableEq

/-- ANSI code of a color, from `Color::to_ansi` in `screen.rs`. -/
def Color.to_ansi : Color → Nat
  | .Reset => 0
  | .Black => 30
  | .Red => 31
  | .Green => 32
  | .Yellow => 33
  | .Blue => 34
  | .Magenta => 35
  | .Cyan => 36
  | .White => 37

/-- Color of a `u8` index, from `Color::from_index` in `screen.rs` (callers
only pass values below 256; the match shape is preserved verbatim, with the
wildcard arm mapping everything else to `Reset`). -/
def Color.from_index : Nat → Color
  | 0 => .Reset
  | 1 => .Black
  | 2 => .Red
  | 3 => .Green
  | 4 => .Yellow
  | 5 => .Blue
  | 6 => .Magenta
  | 7 => .Cyan
  | 8 => .White
  | _ => .Reset

/-- The fixed ANSI code table named by the specification:
index 0 ↦ 0 (reset), 1 ↦ 30 (black), ..., 8 ↦ 37 (white). -/
def ANSI_TABLE : List Nat := [0, 30, 31, 32, 33, 34, 35, 36, 37]

/-- `set_cell_by_index` from `screen.rs`:
`START_ADDR.offset(index as isize).write_volatile(color.to_ansi())`.
On rv32 the `u32 → isize` cast plus pointer offset arithmetic address the byte
at `(START_ADDR + index) mod 2 ^ 32`; exactly that one byte is overwritten
with the ANSI code of the color, with no bounds check of any kind. -/
def set_cell_by_index (index : Nat) (color : Color) (m : Machine) : Machine :=
  { m with
    mem := fun a => if a = (START_ADDR + index) % 2 ^ 32 then color.to_ansi else m.mem a }

/-- `set_cell` from `screen.rs`: delegates to `set_cell_by_index` at the
row-major index `y * WIDTH + x`, computed in `u32` arithmetic. -/
def set_cell (x y : Nat) (color : Color) (m : Machine) : Machine :=
  set_cell_by_index ((y * WIDTH + x) % 2 ^ 32) color m

/-- `draw_screen` from `screen.rs`: `syscall0(Syscall::Draw)`, result
discarded; the display memory is not touched. -/
def draw_screen (k : Kernel) (m : Machine) : Machine :=
  (syscall0 k Syscall.Draw m).2

/-- One iteration of the fill loop in `main.rs`:
`set_cell_by_index(i, Color::from_index(i as u8 % NUM_COLORS)); draw_screen();`
where `i as u8` truncates the `u32` loop counter modulo 256. -/
def fill_step (k : Kernel) (m : Machine) (i : Nat) : Machine :=
  draw_screen k (set_cell_by_index i (Color.from_index (i % 256 % NUM_COLORS)) m)

/-- The first `n` iterations of the fill loop of `main.rs`. -/
def fill_upto (k : Kernel) (n : Nat) (m : Machine) : Machine :=
  (List.range n).foldl (fill_step k) m

/-- The complete fill loop of `main.rs`: `while i < screen::SIZE { ... }` over
all `SIZE` cells. -/
def fill_loop (k : Kernel) (m : Machine) : Machine :=
  fill_upto k SIZE m

/-- Contents of the display buffer region, cell by cell. -/
def dump_screen (m : Machine) : List Nat :=
  (List.range SIZE).map fun i => m.mem (START_ADDR + i)

/-- The socket-read diagnostic branch of `main.rs` (lines 44–48):
`if n == -64 { ... } else if n < 0 { ... }`. -/
def socket_read_diag (n : Int) : Option String :=
  if n = -64 then some "no data in socket, try again\n"
  else if n < 0 then some "read from socket failed\n"
  else none

/-- Outcome of a run of `main`: `halt` is the terminal `loop {}`, `panicked`
is the `panic_handler` loop of `system.rs` (entered by an out-of-bounds slice). -/
inductive Outcome
  | halt
  | panicked
deriving DecidableEq

/-- Printing a byte-string literal, as `print(b"...")` in `main.rs`; its
link-time address comes from `lit`. -/
def lit_print (k : Kernel) (lit : String → Int) (s : String) (m : Machine) : Machine :=
  print k ⟨lit s, bytes s⟩ m

/-- The demo entry point `main` of `main.rs`, transcribed statement by
statement.  `lit` gives the addresses of the byte-string literals and
`bufAddr` the stack address of the 32-byte read buffer `buf`.  A slice
`&buf[..n as usize]` with `n as usize > 32` is out of bounds and panics, which
in this program means the panic handler loops forever (`Outcome.panicked`);
otherwise the run ends in the final `loop {}` (`Outcome.halt`). -/
def mainRun (k : Kernel) (lit : String → Int) (bufAddr : Int) (m : Machine) : Outcome × Machine :=
  let m := lit_print k lit "Running syscalls.\n" m
  let r := «open» k ⟨lit "./file.txt", bytes "./file.txt"⟩ 0 m
  let writing_file := r.1
  let m := r.2
  let m := if writing_file < 0 then lit_print k lit "open write file failed\n" m else m
  let r := write_u8_slice k writing_file ⟨lit "ClickHouse!", bytes "ClickHouse!"⟩ m
  let n := r.1
  let m := r.2
  let m := if n < 0 then lit_print k lit "write to file failed\n" m else m
  let r := close k writing_file m
  let c := r.1
  let m := r.2
  let m := if c < 0 then lit_print k lit "close write file failed\n" m else m
  let r := socket k ⟨lit "localhost:9008", bytes "localhost:9008"⟩ m
  let sock := r.1
  let m := r.2
  let m := if sock < 0 then lit_print k lit "failed to bind socket\n" m else m
  let r := write_u8_slice k sock ⟨lit "128\t[]", bytes "128\t[]"⟩ m
  let n := r.1
  let m := r.2
  let m := if n < 0 then lit_print k lit "write to socket failed\n" m else m
  let buf : Slice := ⟨bufAddr, List.replicate 32 0⟩
  let r := read k sock buf m
  let n := r.1
  let m := r.2
  let m := match socket_read_diag n with
    | some s => lit_print k lit s m
    | none => m
  let m := lit_print k lit "read from socket:\n" m
  if 32 < isize_as_usize n then (Outcome.panicked, m) else
  let m := print k ⟨bufAddr, (List.replicate 32 0).take (isize_as_usize n)⟩ m
  let m := lit_print k lit "\n" m
  let r := close k sock m
  let c := r.1
  let m := r.2
  let m := if c < 0 then lit_print k lit "close socket failed\n" m else m
  let r := «open» k ⟨lit "./file.txt", bytes "./file.txt"⟩ 0 m
  let reading_file := r.1
  let m := r.2
  let m := if reading_file < 0 then lit_print k lit "open read file failed\n" m else m
  let r := read k reading_file buf m
  let n := r.1
  let m := r.2
  let m := if n < 0 then lit_print k lit "read from file failed\n" m else m
  let r := close k reading_file m
  let c := r.1
  let m := r.2
  let m := if c < 0 then lit_print k lit "close read file failed\n" m else m
  let m := lit_print k lit "read from file:\n" m
  if 32 < isize_as_usize n then (Outcome.panicked, m) else
  let m := print k ⟨bufAddr, (List.replicate 32 0).take (isize_as_usize n)⟩ m
  let m := fill_loop k m
  let m := lit_print k lit "Updated pixels.\n" m
  let r := «open» k ⟨lit "./image.bin", bytes "./image.bin"⟩ 0 m
  let image_file := r.1
  let m := r.2
  let m := if image_file < 0 then lit_print k lit "open write image file failed\n" m else m
  let r := write_ptr k image_file (START_ADDR : Int) SIZE m
  let n := r.1
  let m := r.2
  let m := if n < 0 then lit_print k lit "write to image file failed\n" m else m
  let r := close k image_file m
  let c := r.1
  let m := r.2
  let m := if c < 0 then lit_print k lit "close write file failed\n" m else m
  (Outcome.halt, m)

/-- A kernel whose every syscall answers 0 (every operation succeeds with an
empty payload). -/
def k_ok : Kernel := fun _ _ _ => 0

/-- A kernel whose every syscall answers −64; in particular the socket read
reports the would-block sentinel. -/
def k_noData : Kernel := fun _ _ _ => -64

/-- A kernel whose every syscall answers 1. -/
def k_one : Kernel := fun _ _ _ => 1

/-- Initial machine: zeroed memory, empty trap trace. -/
def m0 : Machine := ⟨fun _ => 0, []⟩

/-- Trivial literal layout placing every literal at address 0 (addresses never
influence control flow). -/
def lit0 : String → Int := fun _ => 0

/-- The raw-call contract of a result-returning wrapper: the wrapper hands the
kernel result for `(op, args)` back unchanged, appends exactly the `(op, args)`
event to the trace, and leaves memory alone. -/
def RawCall (k : Kernel) (m : Machine) (op : Int) (args : List Int) (r : Int × Machine) : Prop :=
  r.1 = k m.trace.length op args ∧ r.2.trace = m.trace ++ [(op, args)] ∧ r.2.mem = m.mem

/-- Pointwise description of the memory after `set_cell_by_index`. -/
theorem set_cell_by_index_mem (i : Nat) (c : Color) (m : Machine) (a : Nat) :
    (set_cell_by_index i c m).mem a
      = if a = (START_ADDR + i) % 2 ^ 32 then c.to_ansi else m.mem a := rfl

/-- Defined color indices hit the fixed ANSI table. -/
theorem from_index_table : ∀ r, r < 9 → (Color.from_index r).to_ansi = ANSI_TABLE.getD r 0 := by
  decide

/-- Peeling one iteration off the fill loop. -/
theorem fill_upto_succ (k : Kernel) (n : Nat) (m : Machine) :
    fill_upto k (n + 1) m = fill_step k (fill_upto k n m) n := by
  unfold fill_upto
  rw [List.range_succ, List.foldl_append]
  rfl

/-- Pointwise description of the memory after one fill-loop iteration. -/
theorem fill_step_mem (k : Kernel) (m : Machine) (i a : Nat) :
    (fill_step k m i).mem a
      = if a = (START_ADDR + i) % 2 ^ 32 then (Color.from_index (i % 256 % NUM_COLORS)).to_ansi
        else m.mem a := rfl

/-- Cells already visited by the fill loop hold the color of their truncated
index. -/
theorem fill_upto_mem (k : Kernel) (m : Machine) :
    ∀ n, n ≤ SIZE → ∀ j, j < n →
      (fill_upto k n m).mem (START_ADDR + j)
        = (Color.from_index (j % 256 % NUM_COLORS)).to_ansi := by
  intro n
  induction n with
  | zero => intro _ j hj; exact absurd hj (Nat.not_lt_zero j)
  | succ n ih =>
    intro hn j hj
    have hn32 : (START_ADDR + n) % 2 ^ 32 = START_ADDR + n := by
      apply Nat.mod_eq_of_lt
      have : n < SIZE := hn
      simp only [SIZE, WIDTH, HEIGHT, START_ADDR] at this ⊢
      omega
    rw [fill_upto_succ, fill_step_mem, hn32]
    by_cases hji : j = n
    · subst hji
      rw [if_pos rfl]
    · rw [if_neg (by omega), ih (by omega) j (by omega)]

/-- Claim C3: the opcode-to-integer mapping of the `Syscall` enumeration is
exactly print = 1, draw = 2, reset = 0, open = 10, close = 11, seek = 12,
read = 13, write = 14, socket = 15, and these nine variants are all of them. -/
theorem C3_syscall_numbering :
    Syscall.to_isize .Print = 1 ∧ Syscall.to_isize .Draw = 2 ∧
    Syscall.to_isize .Reset = 0 ∧ Syscall.to_isize .Open = 10 ∧
    Syscall.to_isize .Close = 11 ∧ Syscall.to_isize .Seek = 12 ∧
    Syscall.to_isize .Read = 13 ∧ Syscall.to_isize .Write = 14 ∧
    Syscall.to_isize .Socket = 15 ∧
    ∀ s : Syscall,
      s = .Print ∨ s = .Draw ∨ s = .Reset ∨ s = .Open ∨ s = .Close ∨
      s = .Seek ∨ s = .Read ∨ s = .Write ∨ s = .Socket := by
  refine ⟨rfl, rfl, rfl, rfl, rfl, rfl, rfl, rfl, rfl, ?_⟩
  intro s
  cases s <;> simp

/-- Claim C4: color mapping is total and deterministic; for every index below
9, `from_index(i).to_ansi()` is the i-th entry of the table
{0, 30, 31, 32, 33, 34, 35, 36, 37}, and for every `u8` index at or above 9 it
is 0, the reset code. -/
theorem C4_color_mapping_total :
    (∀ i, i < 9 → (Color.from_index i).to_ansi = ANSI_TABLE.getD i 0) ∧
    (∀ i, 9 ≤ i → i < 256 → (Color.from_index i).to_ansi = 0) := by
  constructor
  · exact from_index_table
  · intro i h9 _
    obtain ⟨n, rfl⟩ : ∃ n, i = n + 9 := ⟨i - 9, by omega⟩
    rfl

/-- Witness for C4 at the concrete indices 4 and 42. -/
theorem C4_color_mapping_total_witness :
    ((4 : Nat) < 9 ∧ (Color.from_index 4).to_ansi = ANSI_TABLE.getD 4 0) ∧
    ((9 : Nat) ≤ 42 ∧ (42 : Nat) < 256 ∧ (Color.from_index 42).to_ansi = 0) :=
  ⟨⟨by decide, C4_color_mapping_total.1 4 (by decide)⟩,
   ⟨by decide, by decide, C4_color_mapping_total.2 42 (by decide) (by decide)⟩⟩

/-- Claim C5: the socket-read step of `main` distinguishes exactly three
disjoint outcomes of the read result: the would-block branch is taken exactly
on −64, the generic-failure branch exactly on negative results other than −64,
and no diagnostic is emitted exactly on non-negative results. -/
theorem C5_socket_read_trichotomy (n : Int) :
    (socket_read_diag n = some "no data in socket, try again\n" ↔ n = -64) ∧
    (socket_read_diag n = some "read from socket failed\n" ↔ (n < 0 ∧ n ≠ -64)) ∧
    (socket_read_diag n = none ↔ 0 ≤ n) := by
  unfold socket_read_diag
  split_ifs with h1 h2 <;> simp_all

/-- Claim C10: the two write entry points are equivalent: `write_u8_slice`
issues exactly the same Gateway call, with the same machine effect and the
same returned result, as `write_ptr` applied to the pointer and length of the
slice. -/
theorem C10_write_entry_points_equal (k : Kernel) (fd : Int) (buf : Slice) (m : Machine) :
    write_u8_slice k fd buf m = write_ptr k fd buf.addr buf.len m := rfl

/-- Claim C6, refuted for `print`: the caller-visible outcome of `print` is
identical under two kernels whose results for the print call differ (0 versus
1), because `print` in `system.rs` returns `()` and throws the Gateway result
away; hence `print` does not return the Gateway result unchanged to the
caller. -/
theorem C6_print_discards_result_counterexample :
    print k_ok ⟨0, []⟩ m0 = print k_one ⟨0, []⟩ m0 ∧
    k_ok 0 1 [0, 0] ≠ k_one 0 1 [0, 0] :=
  ⟨rfl, by decide⟩

/-- Claim C6 as amended: every System Operation wrapper passes its fixed
opcode to the Gateway and converts each slice argument into the consecutive
(start address, length-as-signed-word) pair, and never panics or halts (each
wrapper is a total function); `open`, `socket`, `close`, `seek`, `read`,
`write_u8_slice` and `write_ptr` return the Gateway result unchanged, while
`print` issues its call the same way but discards the result. -/
theorem C6_wrapper_contracts (k : Kernel) (m : Machine) :
    (∀ msg : Slice,
      (print k msg m).trace = m.trace ++ [(1, [msg.addr, usize_as_isize msg.len])] ∧
      (print k msg m).mem = m.mem) ∧
    (∀ (p : Slice) (f : Int),
      RawCall k m 10 [p.addr, usize_as_isize p.len, f] («open» k p f m)) ∧
    (∀ a : Slice, RawCall k m 15 [a.addr, usize_as_isize a.len] (socket k a m)) ∧
    (∀ fd : Int, RawCall k m 11 [fd] (close k fd m)) ∧
    (∀ fd off wh : Int, RawCall k m 12 [fd, off, wh] (seek k fd off wh m)) ∧
    (∀ (fd : Int) (b : Slice),
      RawCall k m 13 [fd, b.addr, usize_as_isize b.len] (read k fd b m)) ∧
    (∀ (fd : Int) (b : Slice),
      RawCall k m 14 [fd, b.addr, usize_as_isize b.len] (write_u8_slice k fd b m)) ∧
    (∀ (fd p : Int) (c : Nat),
      RawCall k m 14 [fd, p, usize_as_isize c] (write_ptr k fd p c m)) :=
  ⟨fun _ => ⟨rfl, rfl⟩,
   fun _ _ => ⟨rfl, rfl, rfl⟩,
   fun _ => ⟨rfl, rfl, rfl⟩,
   fun _ => ⟨rfl, rfl, rfl⟩,
   fun _ _ _ => ⟨rfl, rfl, rfl⟩,
   fun _ _ => ⟨rfl, rfl, rfl⟩,
   fun _ _ => ⟨rfl, rfl, rfl⟩,
   fun _ _ _ => ⟨rfl, rfl, rfl⟩⟩

/-- Claim C7: the two addressing modes of the display buffer agree under
row-major flattening: `set_cell(x, y, c)` performs exactly the write of
`set_cell_by_index(y * WIDTH + x, c)` (the index computed in `u32`
arithmetic), with WIDTH = 40, HEIGHT = 20 and SIZE = WIDTH * HEIGHT = 800. -/
theorem C7_addressing_modes_agree (x y : Nat) (c : Color) (m : Machine)
    (h : y * WIDTH + x < 2 ^ 32) :
    set_cell x y c m = set_cell_by_index (y * WIDTH + x) c m ∧
    WIDTH = 40 ∧ HEIGHT = 20 ∧ SIZE = WIDTH * HEIGHT ∧ SIZE = 800 := by
  refine ⟨?_, rfl, rfl, rfl, rfl⟩
  unfold set_cell
  rw [Nat.mod_eq_of_lt h]

/-- Witness for C7 at x = 3, y = 2. -/
theorem C7_addressing_modes_agree_witness :
    2 * WIDTH + 3 < 2 ^ 32 ∧
    (set_cell 3 2 Color.Red m0 = set_cell_by_index (2 * WIDTH + 3) Color.Red m0 ∧
     WIDTH = 40 ∧ HEIGHT = 20 ∧ SIZE = WIDTH * HEIGHT ∧ SIZE = 800) :=
  ⟨by decide, C7_addressing_modes_agree 3 2 Color.Red m0 (by decide)⟩

/-- Claim C8: `set_cell_by_index(i, c)` writes exactly the one byte
`c.to_ansi()` at offset i from the buffer base and changes no other memory
cell and issues no trap; `draw_screen()` issues the zero-argument Draw trap
(opcode 2) and performs no read or write of the display buffer at all. -/
theorem C8_one_byte_write_and_draw (k : Kernel) (i : Nat) (c : Color) (m : Machine)
    (h : START_ADDR + i < 2 ^ 32) :
    ((set_cell_by_index i c m).mem (START_ADDR + i) = c.to_ansi ∧
     (∀ a, a ≠ START_ADDR + i → (set_cell_by_index i c m).mem a = m.mem a) ∧
     (set_cell_by_index i c m).trace = m.trace) ∧
    ((draw_screen k m).mem = m.mem ∧
     (draw_screen k m).trace = m.trace ++ [(2, [])]) := by
  have hmod : (START_ADDR + i) % 2 ^ 32 = START_ADDR + i := Nat.mod_eq_of_lt h
  refine ⟨⟨?_, ?_, rfl⟩, rfl, rfl⟩
  · rw [set_cell_by_index_mem, hmod, if_pos rfl]
  · intro a ha
    rw [set_cell_by_index_mem, hmod, if_neg ha]

/-- Witness for C8 at i = 5 with color Green. -/
theorem C8_one_byte_write_and_draw_witness :
    START_ADDR + 5 < 2 ^ 32 ∧
    (((set_cell_by_index 5 Color.Green m0).mem (START_ADDR + 5) = Color.Green.to_ansi ∧
      (∀ a, a ≠ START_ADDR + 5 → (set_cell_by_index 5 Color.Green m0).mem a = m0.mem a) ∧
      (set_cell_by_index 5 Color.Green m0).trace = m0.trace) ∧
     ((draw_screen k_ok m0).mem = m0.mem ∧
      (draw_screen k_ok m0).trace = m0.trace ++ [(2, [])])) :=
  ⟨by decide, C8_one_byte_write_and_draw k_ok 5 Color.Green m0 (by decide)⟩

/-- Claim C9: `set_cell_by_index` performs no bounds check: for every index i
at or above SIZE = 800 (and below 2^32, the `u32` range), it still writes the
one byte at base + i (address arithmetic modulo 2^32), leaves every other
address unchanged, and the written address lies outside the display region
[START_ADDR, START_ADDR + SIZE): the index is neither rejected, clamped, nor
wrapped into the region. -/
theorem C9_no_bounds_check (i : Nat) (c : Color) (m : Machine)
    (hlo : SIZE ≤ i) (hhi : i < 2 ^ 32) :
    (set_cell_by_index i c m).mem ((START_ADDR + i) % 2 ^ 32) = c.to_ansi ∧
    (∀ a, a ≠ (START_ADDR + i) % 2 ^ 32 → (set_cell_by_index i c m).mem a = m.mem a) ∧
    (∀ j, j < SIZE → (START_ADDR + i) % 2 ^ 32 ≠ START_ADDR + j) := by
  refine ⟨?_, ?_, ?_⟩
  · rw [set_cell_by_index_mem, if_pos rfl]
  · intro a ha
    rw [set_cell_by_index_mem, if_neg ha]
  · intro j hj
    simp only [SIZE, WIDTH, HEIGHT, START_ADDR] at hlo hj ⊢
    omega

/-- Witness for C9 at the first out-of-range index i = 800. -/
theorem C9_no_bounds_check_witness :
    SIZE ≤ 800 ∧ (800 : Nat) < 2 ^ 32 ∧
    ((set_cell_by_index 800 Color.White m0).mem ((START_ADDR + 800) % 2 ^ 32)
       = Color.White.to_ansi ∧
     (∀ a, a ≠ (START_ADDR + 800) % 2 ^ 32 →
       (set_cell_by_index 800 Color.White m0).mem a = m0.mem a) ∧
     (∀ j, j < SIZE → (START_ADDR + 800) % 2 ^ 32 ≠ START_ADDR + j)) :=
  ⟨by decide, by decide, C9_no_bounds_check 800 Color.White m0 (by decide) (by decide)⟩

/-- Claim C2, refuted: after the fill loop, the cell at position 256 holds
`to_ansi(from_index(256 as u8 % 9)) = to_ansi(from_index(0)) = 0`, not the
ANSI code for 256 % 9 = 4, which the table maps to 33: the loop truncates the
index to `u8` before reducing it modulo 9. -/
theorem C2_fill_claim_counterexample :
    (fill_loop k_ok m0).mem (START_ADDR + 256) ≠ ANSI_TABLE.getD (256 % 9) 0 := by
  have h := fill_upto_mem k_ok m0 SIZE le_rfl 256 (by decide)
  unfold fill_loop
  rw [h]
  decide

/-- Claim C2 as amended: after the fill loop writes all N = SIZE cells, the
display buffer dump is a byte sequence of length N whose element at every
position i < N equals the ANSI code at position (i mod 256) mod 9 of the
table {0, 30, 31, 32, 33, 34, 35, 36, 37} — the loop index is truncated to a
byte (`i as u8`) before the modulo 9 is taken, so positions 256 and above
restart the color cycle at the truncated index rather than continuing it. -/
theorem C2_fill_loop_amended (k : Kernel) (m : Machine) (i : Nat) (hi : i < SIZE) :
    (dump_screen (fill_loop k m)).length = SIZE ∧
    (fill_loop k m).mem (START_ADDR + i) = ANSI_TABLE.getD (i % 256 % 9) 0 := by
  refine ⟨by simp [dump_screen], ?_⟩
  unfold fill_loop
  rw [fill_upto_mem k m SIZE le_rfl i hi]
  exact from_index_table (i % 256 % 9) (Nat.mod_lt _ (by decide))

/-- Witness for the amended C2 at position 10. -/
theorem C2_fill_loop_amended_witness :
    10 < SIZE ∧
    ((dump_screen (fill_loop k_ok m0)).length = SIZE ∧
     (fill_loop k_ok m0).mem (START_ADDR + 10) = ANSI_TABLE.getD (10 % 256 % 9) 0) :=
  ⟨by decide, C2_fill_loop_amended k_ok m0 10 (by decide)⟩

/-- Claim C1, refuted on the code: under the kernel whose every result is −64
— in particular the socket read reports the would-block sentinel the
orchestrator explicitly checks for — the run panics (the slice
`&buf[..n as usize]` with `n as usize = 2^32 − 64 > 32` is out of bounds) and
spins in the panic handler instead of reaching the terminal wait; under the
kernel whose every result is 0 the very same sequence does reach the terminal
infinite wait.  Failure results from the reads therefore abort the sequence
into the panic loop, contrary to the claim. -/
theorem C1_negative_read_panics :
    (mainRun k_noData lit0 0 m0).1 = Outcome.panicked ∧
    (mainRun k_ok lit0 0 m0).1 = Outcome.halt :=
  ⟨rfl, rfl⟩

end ClickV
